import Mathlib

/-!
# Verification of the settings resolution engine of `vscode-python-manager`

This file gives a shallow embedding, in Lean 4, of the settings-resolution
and caching engine implemented in `src/client/common/configSettings.ts`, and
proves (or refutes) a collection of claims about it.

Modelling conventions:

* Node `path` operations are modelled over plain strings.  The primary
  separator (`path.sep`) is `'\\'` on the Windows family and `'/'` elsewhere;
  the Windows family additionally accepts `'/'` as a separator character in
  `basename`/`dirname`.  Dot-segment normalization (`.` / `..`) performed by
  `path.join` / `path.resolve` is not modelled: no verified property depends
  on it, and all concrete inputs used below are already normal.
* The `untildify` npm package replaces a leading `~` (followed by the end of
  the string or a separator) with the user's home directory, and is the
  identity when the home directory is empty.  The home directory is passed
  explicitly as a parameter `home`.
* The filesystem probe `fs.existsSync` is passed explicitly as a parameter
  `ex : String → Bool` (and, where exceptions matter, as
  `ex : String → Except String Bool`).
* Whether the host is in the Windows family (`isWindows()` /
  `getOSType() === OSType.Windows` — both reflect the host OS) is a single
  parameter `windows : Bool`.
* `isTestExecution()` (from `constants.ts`, not part of the sources) is a
  parameter `isTest : Bool`.
-/

namespace ConfigSettings

/-- JavaScript `s.startsWith(pre)`, over the character list of a string (the
built-in `String.startsWith` does not reduce in the kernel). -/
def strStartsWith (s pre : String) : Bool :=
  pre.toList.isPrefixOf s.toList

/-- JavaScript `s.slice(n)` / Lean `String.drop`, over the character list. -/
def strDrop (s : String) (n : Nat) : String :=
  String.mk (s.toList.drop n)

/-- JavaScript `s.indexOf(c) !== -1` for a single character. -/
def strContainsChar (s : String) (c : Char) : Bool :=
  s.toList.contains c

/-- JavaScript `s.toLowerCase()` for ASCII letters. -/
def toLowerStr (s : String) : String :=
  String.mk (s.toList.map (fun c => if 'A' ≤ c && c ≤ 'Z' then Char.ofNat (c.toNat + 32) else c))

/-- A character Node's `path` module treats as a separator: `'/'` always,
and additionally `'\\'` on the Windows family. -/
def isSepChar (windows : Bool) (c : Char) : Bool :=
  c = '/' || (windows && c = '\\')

/-- `path.sep`: the primary separator of the host platform. -/
def pathSep (windows : Bool) : Char :=
  if windows then '\\' else '/'

/-- The primary separator as a one-character string. -/
def pathSepStr (windows : Bool) : String :=
  String.mk [pathSep windows]

/-- Strip trailing separator characters from a path. -/
def dropTrailingSeps (windows : Bool) (s : String) : String :=
  String.mk ((s.toList.reverse.dropWhile (isSepChar windows)).reverse)

/-- `path.basename`: the final component of a path (trailing separators
ignored). -/
def basename (windows : Bool) (s : String) : String :=
  let t := dropTrailingSeps windows s
  String.mk ((t.toList.reverse.takeWhile (fun c => !isSepChar windows c)).reverse)

/-- `path.dirname`: everything before the final component.  Within a
separator run only the run itself is dropped; a path with no separator has
dirname `"."`, and a pure-separator prefix yields the separator itself. -/
def dirname (windows : Bool) (s : String) : String :=
  let t := dropTrailingSeps windows s
  let rest := t.toList.reverse.dropWhile (fun c => !isSepChar windows c)
  match rest with
  | [] =>
    match s.toList with
    | [] => "."
    | c :: _ => if isSepChar windows c then pathSepStr windows else "."
  | _ :: _ =>
    let pre := (rest.dropWhile (isSepChar windows)).reverse
    if pre.isEmpty then pathSepStr windows else String.mk pre

/-- `path.join a b` for the inputs used here: concatenation with the primary
separator (dot-segment normalization not modelled). -/
def pathJoin (windows : Bool) (a b : String) : String :=
  if a = "" then b
  else if b = "" then a
  else dropTrailingSeps windows a ++ pathSepStr windows ++ b

/-- `path.isAbsolute`: on POSIX, a leading `'/'`; on the Windows family, a
leading separator or a drive-letter prefix `X:`. -/
def isAbsolute (windows : Bool) (s : String) : Bool :=
  if windows then
    match s.toList with
    | [] => false
    | [c] => isSepChar true c
    | c :: d :: _ => isSepChar true c || d = ':'
  else
    match s.toList with
    | [] => false
    | c :: _ => c = '/'

/-- `path.resolve root p` as used in `getAbsolutePath`, where `p` is known to
be relative: append `p` to `root` with the primary separator (dot-segment
normalization and the current-working-directory fallback for relative roots
are not modelled; no verified property depends on them). -/
def pathResolve (windows : Bool) (root p : String) : String :=
  dropTrailingSeps windows root ++ pathSepStr windows ++ p

/-- The `untildify` npm package: replace a leading `~`, when followed by the
end of the string, `/` or `\\`, with the home directory; identity when the
home directory is empty. -/
def untildify (home : String) (p : String) : String :=
  if home = "" then p
  else if p = "~" then home
  else if strStartsWith p "~/" then home ++ strDrop p 1
  else if strStartsWith p "~\\" then home ++ strDrop p 1
  else p

/-! ## Executable resolution (`getPythonExecutable`, `isValidPythonPath`) -/

/-- `isValidPythonPath` (configSettings.ts, lines 388–393): the candidate
exists on disk and its basename — lower-cased on the Windows family — starts
with `"python"`.  The filesystem probe `fs.existsSync` is the parameter
`ex`. -/
def isValidPythonPath (ex : String → Bool) (windows : Bool) (pythonPath : String) : Bool :=
  ex pythonPath &&
    strStartsWith (basename windows (if windows then toLowerStr pythonPath else pythonPath)) "python"

/-- `KnownPythonExecutables` (configSettings.ts, lines 352–363), in source
order. -/
def KnownPythonExecutables : List String :=
  ["python", "python4", "python3.6", "python3.5", "python3",
   "python2.7", "python2", "python3.7", "python3.8", "python3.9"]

/-- The body of the `for` loop of `getPythonExecutable` (lines 365–383):
for each known basename, suffix `.exe` on the Windows family, then try
`<dir>/<name>` and `<dir>/Scripts/<name>` (Windows) or `<dir>/bin/<name>`
(POSIX); return the first candidate accepted by `valid`. -/
def probeKnown (valid : String → Bool) (windows : Bool) (dir : String) :
    List String → Option String
  | [] => none
  | n :: rest =>
    let executableName := if windows then n ++ ".exe" else n
    if valid (pathJoin windows dir executableName) then
      some (pathJoin windows dir executableName)
    else if valid (pathJoin windows (pathJoin windows dir (if windows then "Scripts" else "bin"))
        executableName) then
      some (pathJoin windows (pathJoin windows dir (if windows then "Scripts" else "bin"))
        executableName)
    else probeKnown valid windows dir rest

/-- `getPythonExecutable` (configSettings.ts, lines 335–386): untildify; if
the value is `"python"`, contains no `path.sep`, or has equal basename and
dirname, return it; if it is already a valid python path, return it;
otherwise probe the known executables and return the first hit, or the
(untildified) value when none hits. -/
def getPythonExecutable (ex : String → Bool) (windows : Bool) (home : String)
    (pythonPath : String) : String :=
  let pythonPath := untildify home pythonPath
  if pythonPath == "python" || !(strContainsChar pythonPath (pathSep windows)) ||
      basename windows pythonPath == dirname windows pythonPath then
    pythonPath
  else if isValidPythonPath ex windows pythonPath then pythonPath
  else
    match probeKnown (isValidPythonPath ex windows) windows pythonPath KnownPythonExecutables with
    | some found => found
    | none => pythonPath

/-- The flattened, ordered candidate list the loop of `getPythonExecutable`
probes for a directory `dir`: for each known basename in source order, the
plain layout then the subdirectory layout. -/
def flatCandidates (windows : Bool) (dir : String) : List String :=
  KnownPythonExecutables.flatMap fun n =>
    let executableName := if windows then n ++ ".exe" else n
    [pathJoin windows dir executableName,
     pathJoin windows (pathJoin windows dir (if windows then "Scripts" else "bin")) executableName]

/-- Stated from the wording of claim C2 (not from the source): the
basenames the claim says are probed, in the claim's order — unqualified
first, then `3`, `3.6`…`3.9`, then `2`, `2.7`. -/
def ClaimedPythonExecutables : List String :=
  ["python", "python3", "python3.6", "python3.7", "python3.8", "python3.9",
   "python2", "python2.7"]

/-- Stated from the wording of claim C2 (not from the source): the resolver
the claim describes — identical to `getPythonExecutable` except that it
probes `ClaimedPythonExecutables` in the claim's order. -/
def getPythonExecutableClaimed (ex : String → Bool) (windows : Bool) (home : String)
    (pythonPath : String) : String :=
  let pythonPath := untildify home pythonPath
  if pythonPath == "python" || !(strContainsChar pythonPath (pathSep windows)) ||
      basename windows pythonPath == dirname windows pythonPath then
    pythonPath
  else if isValidPythonPath ex windows pythonPath then pythonPath
  else
    match probeKnown (isValidPythonPath ex windows) windows pythonPath ClaimedPythonExecutables with
    | some found => found
    | none => pythonPath

/-! ## Executable resolution with a fallible filesystem probe

`fs.existsSync` may throw (claim C8).  The same functions, with the probe in
the `Except` monad; an exception raised by the probe propagates out of
`getPythonExecutableE`, mirroring the absence of any `try`/`catch` inside
`getPythonExecutable` and `isValidPythonPath`. -/

/-- `isValidPythonPath` with a fallible `fs.existsSync`: a thrown exception
propagates; otherwise as `isValidPythonPath`. -/
def isValidPythonPathE (ex : String → Except String Bool) (windows : Bool)
    (pythonPath : String) : Except String Bool :=
  match ex pythonPath with
  | .error e => .error e
  | .ok b =>
    .ok (b && strStartsWith
      (basename windows (if windows then toLowerStr pythonPath else pythonPath)) "python")

/-- The probe loop of `getPythonExecutable` with a fallible filesystem
probe. -/
def probeKnownE (valid : String → Except String Bool) (windows : Bool) (dir : String) :
    List String → Except String (Option String)
  | [] => .ok none
  | n :: rest =>
    let executableName := if windows then n ++ ".exe" else n
    match valid (pathJoin windows dir executableName) with
    | .error e => .error e
    | .ok true => .ok (some (pathJoin windows dir executableName))
    | .ok false =>
      match valid (pathJoin windows (pathJoin windows dir (if windows then "Scripts" else "bin"))
          executableName) with
      | .error e => .error e
      | .ok true =>
        .ok (some (pathJoin windows (pathJoin windows dir
          (if windows then "Scripts" else "bin")) executableName))
      | .ok false => probeKnownE valid windows dir rest

/-- `getPythonExecutable` with a fallible filesystem probe: any exception the
probe throws propagates to the caller. -/
def getPythonExecutableE (ex : String → Except String Bool) (windows : Bool) (home : String)
    (pythonPath : String) : Except String String :=
  let pythonPath := untildify home pythonPath
  if pythonPath == "python" || !(strContainsChar pythonPath (pathSep windows)) ||
      basename windows pythonPath == dirname windows pythonPath then
    .ok pythonPath
  else
    match isValidPythonPathE ex windows pythonPath with
    | .error e => .error e
    | .ok true => .ok pythonPath
    | .ok false =>
      match probeKnownE (isValidPythonPathE ex windows) windows pythonPath
          KnownPythonExecutables with
      | .error e => .error e
      | .ok (some found) => .ok found
      | .ok none => .ok pythonPath

/-! ## `getAbsolutePath` and the python-path setters -/

/-- `getAbsolutePath` (configSettings.ts, lines 320–333).  `installDir`
stands for `__dirname`; a missing or empty (falsy) `rootDir` falls back to
it.  `isTest` is `isTestExecution()`. -/
def getAbsolutePath (isTest windows : Bool) (home installDir : String)
    (pathToCheck : String) (rootDir : Option String) : String :=
  let rootDir := match rootDir with
    | none => installDir
    | some r => if r = "" then installDir else r
  let pathToCheck := untildify home pathToCheck
  if isTest && (pathToCheck == "") then rootDir
  else if !(strContainsChar pathToCheck (pathSep windows)) then pathToCheck
  else if isAbsolute windows pathToCheck then pathToCheck
  else pathResolve windows rootDir pathToCheck

namespace PythonSettings

/-- The `pythonPath` setter (configSettings.ts, lines 37–48): unchanged value
short-circuits; otherwise `getPythonExecutable` resolves the value, and any
exception it raises is caught, the unresolved value being stored instead.
The setter itself is total: no exception escapes. -/
def setPythonPath (ex : String → Except String Bool) (windows : Bool) (home : String)
    (current value : String) : String :=
  if current == value then current
  else
    match getPythonExecutableE ex windows home value with
    | .ok resolved => resolved
    | .error _ => value

/-- The `defaultInterpreterPath` setter (configSettings.ts, lines 54–65):
same shape as the `pythonPath` setter. -/
def setDefaultInterpreterPath (ex : String → Except String Bool) (windows : Bool) (home : String)
    (current value : String) : String :=
  if current == value then current
  else
    match getPythonExecutableE ex windows home value with
    | .ok resolved => resolved
    | .error _ => value

end PythonSettings

/-! ## Raw configuration values and the recompute (`update`) field rules

Raw values read from the host configuration store are dynamically typed;
`JSVal` covers the value shapes the settings here use (string, boolean,
array, absent/undefined).

`SystemVariables.resolveAny` lives in `variables/systemVariables.ts`, which
is not among the sources; per the spec (§4.1) it substitutes `${var}`
placeholders inside strings (and inside every string of an array),
passes non-string leaves through unchanged, and maps absent input to absent
output.  The string-level substitution itself is irrelevant to the claims,
so it is kept abstract as a parameter `rs : String → String`. -/

/-- A dynamically-typed raw configuration value (arrays carry strings: the
array-valued settings here are string lists). -/
inductive JSVal where
  | undef : JSVal
  | bool : Bool → JSVal
  | str : String → JSVal
  | arr : List String → JSVal
deriving DecidableEq

/-- Modelled from the spec: `SystemVariables.resolveAny`
(`variables/systemVariables.ts` is not among the sources).  Spec §4.1:
substitute placeholders in strings — abstracted as `rs` — map over the
strings of an array, pass non-string leaves through unchanged, absent in →
absent out. -/
def resolveAnyModel (rs : String → String) : JSVal → JSVal
  | .undef => .undef
  | .bool b => .bool b
  | .str s => .str (rs s)
  | .arr xs => .arr (xs.map rs)

/-- `WorkspaceConfiguration.get('key', default)`: the default when the raw
value is absent, the raw value otherwise. -/
def cfgGet (raw : JSVal) (dflt : JSVal) : JSVal :=
  if raw = .undef then dflt else raw

namespace PythonSettings

/-- `update`, line 201: `venvFolders` is assigned
`resolveAny(get('venvFolders'))` directly — the non-null assertion `!` is a
type-level cast only, and there is no array check. -/
def updateVenvFolders (rs : String → String) (raw : JSVal) : JSVal :=
  resolveAnyModel rs raw

/-- `update`, lines 222–223: `devOptions` is assigned
`resolveAny(get('devOptions'))`, then replaced by `[]` unless
`Array.isArray` holds of it. -/
def updateDevOptions (rs : String → String) (raw : JSVal) : JSVal :=
  let devOptions := resolveAnyModel rs raw
  match devOptions with
  | .arr xs => .arr xs
  | _ => .arr []

/-- `update`, line 225: `disableInstallationChecks` is
`get('disableInstallationCheck') === true`. -/
def updateDisableInstallationChecks (raw : JSVal) : Bool :=
  raw == .bool true

/-- `update`, line 226: `globalModuleInstallation` is
`get('globalModuleInstallation') === true`. -/
def updateGlobalModuleInstallation (raw : JSVal) : Bool :=
  raw == .bool true

/-- `update`, lines 214–216: `autoUpdateLanguageServer` is
`resolveAny(get('autoUpdateLanguageServer', true))` — the default `true`
applies when the raw value is absent, and no `=== true` comparison is
performed. -/
def updateAutoUpdateLanguageServer (rs : String → String) (raw : JSVal) : JSVal :=
  resolveAnyModel rs (cfgGet raw (.bool true))

/-- `getPythonPath`, lines 308–315: `inExperimentDeprecatePythonPath` is the
constant `true`. -/
def inExperimentDeprecatePythonPath : Bool := true

/-- `getPythonPath`, lines 311–315: the value assigned to `this.pythonPath`.
`interpreterPathService` is `some v` when the snapshot was constructed with
an interpreter-path service, `v` being what `service.get(workspaceRoot)`
returns (possibly `.undef`); `cfgPythonPath` is the raw configured
`'pythonPath'` setting. -/
def getPythonPathRaw (rs : String → String) (interpreterPathService : Option JSVal)
    (cfgPythonPath : JSVal) : JSVal :=
  resolveAnyModel rs
    (if inExperimentDeprecatePythonPath && interpreterPathService.isSome then
      interpreterPathService.getD .undef
    else cfgPythonPath)

end PythonSettings

/-! ## The settings registry (`PythonSettings` static state)

A snapshot instance is modelled by `Inst`: a creation identifier (standing
for reference identity — each construction yields a fresh one) and its list
of registered subscriptions (`disposables`; `initialize`, lines 269–290,
pushes the subscription handles).  The static
`Map `mapping workspace-folder keys to instances is an association list with
distinct keys, plus the fresh-identifier counter. -/

/-- A `PythonSettings` instance, reduced to what the claims observe:
its identity and its subscription handles. -/
structure Inst where
  id : Nat
  disposables : List Nat
deriving DecidableEq

/-- The static registry state: `PythonSettings.pythonSettings` plus a
fresh-identity counter for newly constructed instances. -/
structure RegState where
  settings : List (String × Inst)
  fresh : Nat
deriving DecidableEq

/-- `vscode.ConfigurationTarget`, restricted to the two values
`getSettingsUriAndTarget` produces. -/
inductive ConfigurationTarget where
  | Global : ConfigurationTarget
  | WorkspaceFolder : ConfigurationTarget
deriving DecidableEq

/-- The workspace collaborator (`IWorkspaceService`), reduced to what
`getSettingsUriAndTarget` consumes: `getWorkspaceFolder` maps a resource to
the uri of its containing folder, and `workspaceFolders` is the (possibly
undefined) ordered folder list.  Uris are identified with their `fsPath`. -/
structure WorkspaceModel where
  getWorkspaceFolder : String → Option String
  workspaceFolders : Option (List String)

namespace PythonSettings

/-- `getSettingsUriAndTarget` (configSettings.ts, lines 147–161): the
resource's containing folder if any, else the first workspace folder if the
folder list is a non-empty array, else global scope. -/
def getSettingsUriAndTarget (w : WorkspaceModel) (resource : Option String) :
    Option String × ConfigurationTarget :=
  let workspaceFolder := resource.bind w.getWorkspaceFolder
  let workspaceFolderUri :=
    if workspaceFolder.isNone then
      match w.workspaceFolders with
      | some folders => if 0 < folders.length then folders.head? else none
      | none => none
    else workspaceFolder
  (workspaceFolderUri,
   if workspaceFolderUri.isSome then ConfigurationTarget.WorkspaceFolder
   else ConfigurationTarget.Global)

/-- The scope key `getInstance` derives (line 126–127): the folder uri's
`fsPath`, or `''` for the global scope. -/
def settingsKey (w : WorkspaceModel) (resource : Option String) : String :=
  ((getSettingsUriAndTarget w resource).1).getD ""

/-- The disposables `initialize` (lines 269–290) registers on a fresh
instance; the handles stand for the two (or three) event subscriptions. -/
def initDisposables : List Nat := [0, 1]

/-- `getInstance` (configSettings.ts, lines 120–139): derive the scope key;
if the map has no entry for it, construct a new instance and register it;
return the map's entry for the key. -/
def getInstance (w : WorkspaceModel) (resource : Option String) (s : RegState) :
    Inst × RegState :=
  let workspaceFolderKey := settingsKey w resource
  match s.settings.lookup workspaceFolderKey with
  | some inst => (inst, s)
  | none =>
    let settings : Inst := ⟨s.fresh, initDisposables⟩
    (settings, ⟨(workspaceFolderKey, settings) :: s.settings, s.fresh + 1⟩)

/-- The instance method `dispose` (configSettings.ts, lines 186–189):
dispose every registered disposable and reset the list to `[]`. -/
def instDispose (inst : Inst) : Inst :=
  { inst with disposables := [] }

/-- The static `dispose` (configSettings.ts, lines 163–170), in state-passing
style: outside test execution, throw (first component carries the message)
and leave the registry untouched; in test execution, call `dispose` on every
cached instance (third component: the disposed instances) and clear the map.
-/
def staticDispose (isTest : Bool) (s : RegState) :
    Option String × RegState × List Inst :=
  if isTest then
    (none, { s with settings := [] }, s.settings.map fun kv => instDispose kv.2)
  else
    (some "Dispose can only be called from unit tests", s, [])

/-- `Map.delete` on the association-list registry map. -/
def mapDelete (m : List (String × Inst)) (k : String) : List (String × Inst) :=
  m.filter fun kv => kv.1 ≠ k

/-- `onWorkspaceFoldersChanged` (configSettings.ts, lines 243–253):
compute the keys cached in the registry whose key is not among the current
workspace folder paths, and delete each of them from the map. -/
def onWorkspaceFoldersChanged (workspaceKeys : List String) (s : RegState) : RegState :=
  let activatedWkspcKeys := s.settings.map Prod.fst
  let activatedWkspcFoldersRemoved :=
    activatedWkspcKeys.filter fun item => !(workspaceKeys.contains item)
  { s with settings := activatedWkspcFoldersRemoved.foldl mapDelete s.settings }

/-- A sequence of `getInstance` calls, threading the registry state. -/
def runCalls (calls : List (WorkspaceModel × Option String)) (s : RegState) : RegState :=
  calls.foldl (fun st c => (getInstance c.1 c.2 st).2) s

end PythonSettings

/-! ## Theorems -/

/-- C3: every boolean flag the recompute derives from the raw configuration
is computed by exact equality against boolean `true` — boolean `true` maps to
`true`, and every other raw value (boolean `false`, any string including
`"true"`, any array, absent) maps to `false` — except the auto-update flag
`autoUpdateLanguageServer`, which is the raw value with default `true` when
unset: unset maps to `true`, and raw boolean `true` maps to `true` for it as
well. -/
theorem claim_C3_boolean_flags :
    ∀ (rs : String → String) (b : Bool) (s : String) (xs : List String),
      PythonSettings.updateDisableInstallationChecks (JSVal.bool true) = true ∧
      PythonSettings.updateDisableInstallationChecks (JSVal.bool b) = b ∧
      PythonSettings.updateDisableInstallationChecks (JSVal.str s) = false ∧
      PythonSettings.updateDisableInstallationChecks (JSVal.str "true") = false ∧
      PythonSettings.updateDisableInstallationChecks (JSVal.arr xs) = false ∧
      PythonSettings.updateDisableInstallationChecks JSVal.undef = false ∧
      PythonSettings.updateGlobalModuleInstallation (JSVal.bool true) = true ∧
      PythonSettings.updateGlobalModuleInstallation (JSVal.bool b) = b ∧
      PythonSettings.updateGlobalModuleInstallation (JSVal.str s) = false ∧
      PythonSettings.updateGlobalModuleInstallation (JSVal.str "true") = false ∧
      PythonSettings.updateGlobalModuleInstallation (JSVal.arr xs) = false ∧
      PythonSettings.updateGlobalModuleInstallation JSVal.undef = false ∧
      PythonSettings.updateAutoUpdateLanguageServer rs JSVal.undef = JSVal.bool true ∧
      PythonSettings.updateAutoUpdateLanguageServer rs (JSVal.bool true) = JSVal.bool true := by
  intro rs b s xs
  cases b <;>
    simp [PythonSettings.updateDisableInstallationChecks,
      PythonSettings.updateGlobalModuleInstallation,
      PythonSettings.updateAutoUpdateLanguageServer, cfgGet, resolveAnyModel]

/-- C9: when the snapshot holds an interpreter-path service, the value the
recompute assigns to `pythonPath` is derived exclusively from the service's
answer: it equals the resolved service value, it is unchanged under any
change of the raw configured `'pythonPath'` setting, and a service answer of
`undefined` yields `undefined` rather than falling back to the configured
value. -/
theorem claim_C9_interpreter_path_service :
    ∀ (rs : String → String) (v cfg cfg' : JSVal),
      PythonSettings.getPythonPathRaw rs (some v) cfg = resolveAnyModel rs v ∧
      PythonSettings.getPythonPathRaw rs (some v) cfg =
        PythonSettings.getPythonPathRaw rs (some v) cfg' ∧
      PythonSettings.getPythonPathRaw rs (some JSVal.undef) cfg = JSVal.undef := by
  intro rs v cfg cfg'
  exact ⟨rfl, rfl, rfl⟩

/-- C7: the static registry reset `PythonSettings.dispose` throws outside a
test-execution context and leaves the registry map unchanged; in a test
context it raises no error, clears the map, and every snapshot it disposed
has released its subscriptions. -/
theorem claim_C7_static_dispose :
    ∀ s : RegState,
      PythonSettings.staticDispose false s =
        (some "Dispose can only be called from unit tests", s, []) ∧
      (PythonSettings.staticDispose true s).1 = none ∧
      (PythonSettings.staticDispose true s).2.1.settings = [] ∧
      ∀ d ∈ (PythonSettings.staticDispose true s).2.2, d.disposables = [] := by
  intro s
  refine ⟨rfl, rfl, rfl, ?_⟩
  intro d hd
  simp only [PythonSettings.staticDispose, if_pos rfl] at hd
  obtain ⟨kv, -, hkv⟩ := List.mem_map.mp hd
  subst hkv
  rfl

/-- Witness for C7 at a concrete registry state holding one snapshot with two
live subscriptions. -/
theorem claim_C7_static_dispose_witness :
    PythonSettings.staticDispose false ⟨[("/proj", ⟨0, [0, 1]⟩)], 1⟩ =
      (some "Dispose can only be called from unit tests", ⟨[("/proj", ⟨0, [0, 1]⟩)], 1⟩, []) ∧
    (PythonSettings.staticDispose true ⟨[("/proj", ⟨0, [0, 1]⟩)], 1⟩).2.1.settings = [] ∧
    Inst.disposables ⟨0, []⟩ = [] := by
  refine ⟨(claim_C7_static_dispose ⟨[("/proj", ⟨0, [0, 1]⟩)], 1⟩).1,
    (claim_C7_static_dispose ⟨[("/proj", ⟨0, [0, 1]⟩)], 1⟩).2.2.1,
    (claim_C7_static_dispose ⟨[("/proj", ⟨0, [0, 1]⟩)], 1⟩).2.2.2 ⟨0, []⟩ (by decide)⟩

/-- C8: if the filesystem probe throws while `getPythonExecutable` resolves a
candidate, both the `pythonPath` setter and the `defaultInterpreterPath`
setter catch the exception locally and assign the unresolved candidate value;
no error reaches the caller (the setters are total functions). -/
theorem claim_C8_setter_catches :
    ∀ (ex : String → Except String Bool) (windows : Bool) (home current value e : String),
      getPythonExecutableE ex windows home value = .error e →
      PythonSettings.setPythonPath ex windows home current value = value ∧
      PythonSettings.setDefaultInterpreterPath ex windows home current value = value := by
  intro ex windows home current value e h
  constructor
  · simp only [PythonSettings.setPythonPath, h]
    split
    · next hcv => exact beq_iff_eq.mp hcv
    · rfl
  · simp only [PythonSettings.setDefaultInterpreterPath, h]
    split
    · next hcv => exact beq_iff_eq.mp hcv
    · rfl

/-- Witness for C8: a probe that always throws `"EACCES"`; resolving the
directory candidate `/opt/env` hits the probe, and both setters store the
unresolved candidate. -/
theorem claim_C8_setter_catches_witness :
    PythonSettings.setPythonPath (fun _ => .error "EACCES") false "/home/user"
      "python" "/opt/env" = "/opt/env" ∧
    PythonSettings.setDefaultInterpreterPath (fun _ => .error "EACCES") false "/home/user"
      "python" "/opt/env" = "/opt/env" :=
  claim_C8_setter_catches (fun _ => .error "EACCES") false "/home/user" "python" "/opt/env"
    "EACCES" rfl

/-- Counterexample to C4 as stated: `venvFolders` is a search-path list
field, yet a raw (placeholder-free) string value `"x"` is stored as the
string `"x"`, not replaced with an empty sequence. -/
theorem claim_C4_counterexample :
    PythonSettings.updateVenvFolders id (JSVal.str "x") = JSVal.str "x" ∧
    PythonSettings.updateVenvFolders id (JSVal.str "x") ≠ JSVal.arr [] := by
  exact ⟨rfl, by decide⟩

/-- C4 as amended: the empty-sequence coercion of non-array raw values
applies to `devOptions` only; `venvFolders` stores the variable-resolved raw
value unchanged, whatever its shape. -/
theorem claim_C4_amended :
    ∀ (rs : String → String) (raw : JSVal),
      (∀ xs, resolveAnyModel rs raw ≠ JSVal.arr xs) →
      PythonSettings.updateDevOptions rs raw = JSVal.arr [] ∧
      PythonSettings.updateVenvFolders rs raw = resolveAnyModel rs raw := by
  intro rs raw h
  refine ⟨?_, rfl⟩
  cases hr : resolveAnyModel rs raw with
  | undef => simp [PythonSettings.updateDevOptions, hr]
  | bool b => simp [PythonSettings.updateDevOptions, hr]
  | str s => simp [PythonSettings.updateDevOptions, hr]
  | arr xs => exact absurd hr (h xs)

/-- Witness for C4 as amended at the non-array raw value `"x"`. -/
theorem claim_C4_amended_witness :
    PythonSettings.updateDevOptions id (JSVal.str "x") = JSVal.arr [] ∧
    PythonSettings.updateVenvFolders id (JSVal.str "x") = JSVal.str "x" := by
  have h := claim_C4_amended id (JSVal.str "x") (fun xs hx => by simp [resolveAnyModel] at hx)
  exact ⟨h.1, h.2⟩

/-- Counterexample to C6 as stated: the input `"~"` contains no
path-separator character, yet `getAbsolutePath` (home `/home/user`, root
argument `/r`, outside a test harness) returns `"/home/user"`, not the input
unchanged. -/
theorem claim_C6_counterexample :
    strContainsChar "~" (pathSep false) = false ∧
    getAbsolutePath false false "/home/user" "/install" "~" (some "/r") = "/home/user" ∧
    getAbsolutePath false false "/home/user" "/install" "~" (some "/r") ≠ "~" := by
  refine ⟨rfl, rfl, by decide⟩

/-- C6 as amended: for every input that tilde expansion leaves unchanged,
that contains no path-separator character, and that is non-empty when under
a test harness, `getAbsolutePath` returns the input unchanged, regardless of
the root directory argument. -/
theorem claim_C6_amended :
    ∀ (isTest windows : Bool) (home installDir p : String) (rootDir : Option String),
      untildify home p = p →
      (isTest = true → p ≠ "") →
      strContainsChar p (pathSep windows) = false →
      getAbsolutePath isTest windows home installDir p rootDir = p := by
  intro isTest windows home installDir p rootDir hu ht hc
  simp only [getAbsolutePath, hu, hc]
  cases isTest with
  | false => simp
  | true =>
    have hp : (p == "") = false := beq_eq_false_iff_ne.mpr (ht rfl)
    simp [hp]

/-- Witness for C6 as amended: the bare command name `"pylint"` under a test
harness, with no root directory supplied. -/
theorem claim_C6_amended_witness :
    getAbsolutePath true false "/home/user" "/install" "pylint" none = "pylint" :=
  claim_C6_amended true false "/home/user" "/install" "pylint" none rfl
    (fun _ => by decide) rfl

/-- The probe loop of `getPythonExecutable` returns exactly the first
element of the flattened, ordered candidate list that the validity check
accepts. -/
theorem probeKnown_eq_find (valid : String → Bool) (windows : Bool) (dir : String) :
    ∀ names : List String,
      probeKnown valid windows dir names =
        (names.flatMap fun n =>
          let executableName := if windows then n ++ ".exe" else n
          [pathJoin windows dir executableName,
           pathJoin windows (pathJoin windows dir (if windows then "Scripts" else "bin"))
             executableName]).find? valid := by
  intro names
  induction names with
  | nil => rfl
  | cons n rest ih =>
    simp only [probeKnown, List.flatMap_cons, List.find?_append, List.find?_cons]
    cases h1 : valid (pathJoin windows dir (if windows then n ++ ".exe" else n)) with
    | true => simp [List.find?, h1]
    | false =>
      cases h2 : valid (pathJoin windows
          (pathJoin windows dir (if windows then "Scripts" else "bin"))
          (if windows then n ++ ".exe" else n)) with
      | true => simp [List.find?, h1, h2]
      | false => simp [List.find?, h1, h2, ih]

/-- The flattened candidate list is the probe loop's list instantiated at
the known executables. -/
theorem flatCandidates_eq (windows : Bool) (dir : String) :
    flatCandidates windows dir =
      KnownPythonExecutables.flatMap fun n =>
        let executableName := if windows then n ++ ".exe" else n
        [pathJoin windows dir executableName,
         pathJoin windows (pathJoin windows dir (if windows then "Scripts" else "bin"))
           executableName] := rfl

/-- Counterexample to C2 as stated: the source's probe list and order are
`python, python4, python3.6, python3.5, python3, python2.7, python2,
python3.7, python3.8, python3.9`, not the claimed `python, python3,
python3.6…python3.9, python2, python2.7`.  With only `/opt/env/python4` on
disk the code returns it while the claimed resolver finds nothing; with
`/opt/env/python3` and `/opt/env/python3.6` both on disk the code returns
`python3.6` first while the claimed order returns `python3` first. -/
theorem claim_C2_counterexample :
    getPythonExecutable (fun s => s == "/opt/env/python4") false "/home/user" "/opt/env" =
      "/opt/env/python4" ∧
    getPythonExecutableClaimed (fun s => s == "/opt/env/python4") false "/home/user" "/opt/env" =
      "/opt/env" ∧
    getPythonExecutable (fun s => s == "/opt/env/python3" || s == "/opt/env/python3.6")
      false "/home/user" "/opt/env" = "/opt/env/python3.6" ∧
    getPythonExecutableClaimed (fun s => s == "/opt/env/python3" || s == "/opt/env/python3.6")
      false "/home/user" "/opt/env" = "/opt/env/python3" ∧
    ("/opt/env/python4" : String) ≠ "/opt/env" ∧
    ("/opt/env/python3.6" : String) ≠ "/opt/env/python3" := by
  refine ⟨rfl, rfl, rfl, rfl, by decide, by decide⟩

/-- C2 as amended: when the candidate (after tilde expansion) reaches the
directory-probing loop — it is not `"python"`, contains the separator, its
basename and dirname differ, and it is not itself a valid python path — the
result is the first element of the flattened candidate list accepted by the
validity check, the list enumerating, for each basename in the source order
`python, python4, python3.6, python3.5, python3, python2.7, python2,
python3.7, python3.8, python3.9` (suffixed `.exe` on the Windows family),
the layout `<dir>/<name>` then `<dir>/bin/<name>` (`<dir>/Scripts/<name>` on
the Windows family); when no element is accepted, the candidate itself. -/
theorem claim_C2_amended :
    ∀ (ex : String → Bool) (windows : Bool) (home p : String),
      (untildify home p == "python" ||
        !(strContainsChar (untildify home p) (pathSep windows)) ||
        (basename windows (untildify home p) == dirname windows (untildify home p))) = false →
      isValidPythonPath ex windows (untildify home p) = false →
      getPythonExecutable ex windows home p =
        ((flatCandidates windows (untildify home p)).find?
          (isValidPythonPath ex windows)).getD (untildify home p) := by
  intro ex windows home p h1 h2
  simp only [getPythonExecutable, h1, h2, Bool.false_eq_true, if_false]
  rw [probeKnown_eq_find, ← flatCandidates_eq]
  cases hf : (flatCandidates windows (untildify home p)).find? (isValidPythonPath ex windows) with
  | none => rfl
  | some found => rfl

/-- Witness for C2 as amended: the spec's own example — `/opt/env` with
exactly `/opt/env/bin/python3.8` on disk resolves to it. -/
theorem claim_C2_amended_witness :
    getPythonExecutable (fun s => s == "/opt/env/bin/python3.8") false "/home/user" "/opt/env" =
      "/opt/env/bin/python3.8" :=
  (claim_C2_amended (fun s => s == "/opt/env/bin/python3.8") false "/home/user" "/opt/env"
    (by decide) (by decide)).trans (by decide)

/-- Counterexample to C5 as stated: no known executable exists anywhere
(the probe is constantly false), yet `getPythonExecutable` returns the
candidate `~/venv` tilde-expanded to `/home/user/venv`, not the original
candidate unchanged. -/
theorem claim_C5_counterexample :
    (flatCandidates false "/home/user/venv").find?
      (isValidPythonPath (fun _ => false) false) = none ∧
    getPythonExecutable (fun _ => false) false "/home/user" "~/venv" = "/home/user/venv" ∧
    getPythonExecutable (fun _ => false) false "/home/user" "~/venv" ≠ "~/venv" := by
  refine ⟨by decide, rfl, by decide⟩

/-- C5 as amended: for every candidate that tilde expansion leaves unchanged
and for which no known executable basename is valid at any probed layout,
`getPythonExecutable` returns the candidate unchanged, and re-running it on
its own output yields the same result (idempotence); a candidate with a
leading tilde is first expanded against the home directory and the expanded
value is the one returned. -/
theorem claim_C5_amended :
    ∀ (ex : String → Bool) (windows : Bool) (home p : String),
      untildify home p = p →
      (∀ c ∈ flatCandidates windows p, isValidPythonPath ex windows c = false) →
      getPythonExecutable ex windows home p = p ∧
      getPythonExecutable ex windows home (getPythonExecutable ex windows home p) = p := by
  intro ex windows home p hu hall
  have hfind : (flatCandidates windows p).find? (isValidPythonPath ex windows) = none := by
    refine List.find?_eq_none.mpr fun c hc => ?_
    simp [hall c hc]
  have h1 : getPythonExecutable ex windows home p = p := by
    simp only [getPythonExecutable, hu]
    by_cases hcond : (p == "python" || !(strContainsChar p (pathSep windows)) ||
        (basename windows p == dirname windows p)) = true
    · simp [hcond]
    · rw [Bool.not_eq_true] at hcond
      by_cases hv : isValidPythonPath ex windows p = true
      · simp [hcond, hv]
      · rw [Bool.not_eq_true] at hv
        simp only [hcond, hv, Bool.false_eq_true, if_false]
        rw [probeKnown_eq_find, ← flatCandidates_eq, hfind]
  exact ⟨h1, by rw [h1]; exact h1⟩

/-- Witness for C5 as amended: the directory `/opt/env` with an empty
filesystem resolves to itself, and resolving again is stable. -/
theorem claim_C5_amended_witness :
    getPythonExecutable (fun _ => false) false "/home/user" "/opt/env" = "/opt/env" ∧
    getPythonExecutable (fun _ => false) false "/home/user"
      (getPythonExecutable (fun _ => false) false "/home/user" "/opt/env") = "/opt/env" :=
  claim_C5_amended (fun _ => false) false "/home/user" "/opt/env" rfl (by decide)

/-- After `getInstance`, the registry holds the returned instance under the
derived scope key. -/
theorem getInstance_lookup_self (w : WorkspaceModel) (r : Option String) (s : RegState) :
    (PythonSettings.getInstance w r s).2.settings.lookup (PythonSettings.settingsKey w r) =
      some (PythonSettings.getInstance w r s).1 := by
  simp only [PythonSettings.getInstance]
  cases h : s.settings.lookup (PythonSettings.settingsKey w r) with
  | some inst => simp [h]
  | none => simp [List.lookup]

/-- `getInstance` never replaces an entry already in the registry map. -/
theorem getInstance_preserves (w : WorkspaceModel) (r : Option String) (s : RegState)
    (k : String) (v : Inst) :
    s.settings.lookup k = some v →
    (PythonSettings.getInstance w r s).2.settings.lookup k = some v := by
  intro hv
  simp only [PythonSettings.getInstance]
  cases h : s.settings.lookup (PythonSettings.settingsKey w r) with
  | some inst => simpa using hv
  | none =>
    have hk : k ≠ PythonSettings.settingsKey w r := by
      intro he
      rw [he, h] at hv
      exact Option.noConfusion hv
    simp [List.lookup, beq_eq_false_iff_ne.mpr hk, hv]

/-- A sequence of `getInstance` calls never replaces an entry already in the
registry map. -/
theorem runCalls_preserves (calls : List (WorkspaceModel × Option String)) :
    ∀ (s : RegState) (k : String) (v : Inst),
      s.settings.lookup k = some v →
      (PythonSettings.runCalls calls s).settings.lookup k = some v := by
  induction calls with
  | nil => intro s k v hv; exact hv
  | cons c rest ih =>
    intro s k v hv
    exact ih _ k v (getInstance_preserves c.1 c.2 s k v hv)

/-- When the registry already caches the derived scope key, `getInstance`
returns the cached instance and leaves the state untouched. -/
theorem getInstance_of_lookup (w : WorkspaceModel) (r : Option String) (s : RegState) (v : Inst)
    (h : s.settings.lookup (PythonSettings.settingsKey w r) = some v) :
    PythonSettings.getInstance w r s = (v, s) := by
  simp only [PythonSettings.getInstance, h]

/-- C1: at most one live snapshot exists per scope key.  Two `getInstance`
calls whose resources derive the same scope key — possibly separated by
arbitrary further `getInstance` calls — return the identical instance, and a
`getInstance` call never replaces an entry already cached for any key. -/
theorem claim_C1_one_instance_per_key :
    ∀ (w : WorkspaceModel) (r1 r2 : Option String)
      (calls : List (WorkspaceModel × Option String)) (s : RegState),
      PythonSettings.settingsKey w r1 = PythonSettings.settingsKey w r2 →
      (PythonSettings.getInstance w r2
        (PythonSettings.runCalls calls (PythonSettings.getInstance w r1 s).2)).1 =
        (PythonSettings.getInstance w r1 s).1 ∧
      (∀ k v, s.settings.lookup k = some v →
        (PythonSettings.getInstance w r1 s).2.settings.lookup k = some v) := by
  intro w r1 r2 calls s hkey
  constructor
  · have h2 := runCalls_preserves calls _ _ _ (getInstance_lookup_self w r1 s)
    rw [hkey] at h2
    rw [getInstance_of_lookup w r2 _ _ h2]
  · exact fun k v hv => getInstance_preserves w r1 s k v hv

/-- A concrete workspace for the C1 witness: two files contained in the
single workspace folder `/proj`. -/
def wsSample : WorkspaceModel :=
  ⟨fun r => if r = "/proj/a.py" ∨ r = "/proj/b.py" then some "/proj" else none,
   some ["/proj"]⟩

/-- Witness for C1: starting from the empty registry, resolving `/proj/a.py`,
then the scope-less global resource, then `/proj/b.py` yields for the third
call the very instance the first call created. -/
theorem claim_C1_one_instance_per_key_witness :
    (PythonSettings.getInstance wsSample (some "/proj/b.py")
      (PythonSettings.runCalls [(wsSample, none)]
        (PythonSettings.getInstance wsSample (some "/proj/a.py") ⟨[], 0⟩).2)).1 =
      (PythonSettings.getInstance wsSample (some "/proj/a.py") ⟨[], 0⟩).1 :=
  (claim_C1_one_instance_per_key wsSample (some "/proj/a.py") (some "/proj/b.py")
    [(wsSample, none)] ⟨[], 0⟩ rfl).1

/-- Membership in a `Map.delete` on the association-list registry map. -/
theorem mem_mapDelete {m : List (String × Inst)} {k : String} {kv : String × Inst} :
    kv ∈ PythonSettings.mapDelete m k ↔ kv ∈ m ∧ kv.1 ≠ k := by
  simp [PythonSettings.mapDelete, List.mem_filter]

/-- Membership after deleting every key of a list from the registry map. -/
theorem mem_foldl_mapDelete :
    ∀ (ks : List String) (m : List (String × Inst)) (kv : String × Inst),
      kv ∈ ks.foldl PythonSettings.mapDelete m ↔ kv ∈ m ∧ kv.1 ∉ ks := by
  intro ks
  induction ks with
  | nil => intro m kv; simp
  | cons a t ih =>
    intro m kv
    simp only [List.foldl_cons, ih, mem_mapDelete, List.mem_cons]
    constructor
    · rintro ⟨⟨hm, ha⟩, ht⟩
      exact ⟨hm, fun h => h.elim ha ht⟩
    · rintro ⟨hm, h⟩
      exact ⟨⟨hm, fun he => h (Or.inl he)⟩, fun ht => h (Or.inr ht)⟩

/-- An association list none of whose keys is `k` looks `k` up to `none`. -/
theorem lookup_eq_none_of_all_ne :
    ∀ (l : List (String × Inst)) (k : String),
      (∀ kv ∈ l, kv.1 ≠ k) → l.lookup k = none := by
  intro l k
  induction l with
  | nil => intro _; rfl
  | cons a t ih =>
    intro h
    obtain ⟨a1, a2⟩ := a
    have ha : a1 ≠ k := h (a1, a2) (List.mem_cons_self _ _)
    simp [List.lookup, beq_eq_false_iff_ne.mpr (Ne.symm ha),
      ih fun kv hkv => h kv (List.mem_cons_of_mem _ hkv)]

/-- C10: the workspace-folders-changed handler removes from the registry
exactly the entries whose key is not a current workspace folder path: after
it runs every remaining key is a current folder path, every entry whose key
is a current folder path is retained, and — since the empty global-scope key
is never a folder path — the global entry is evicted by any folders-change
event. -/
theorem claim_C10_folder_change_gc :
    ∀ (ws : List String) (s : RegState),
      (∀ kv ∈ (PythonSettings.onWorkspaceFoldersChanged ws s).settings, kv.1 ∈ ws) ∧
      (∀ kv ∈ s.settings, kv.1 ∈ ws →
        kv ∈ (PythonSettings.onWorkspaceFoldersChanged ws s).settings) ∧
      ("" ∉ ws → (PythonSettings.onWorkspaceFoldersChanged ws s).settings.lookup "" = none) := by
  intro ws s
  have hmem : ∀ kv : String × Inst,
      kv ∈ (PythonSettings.onWorkspaceFoldersChanged ws s).settings ↔
        kv ∈ s.settings ∧ kv.1 ∈ ws := by
    intro kv
    simp only [PythonSettings.onWorkspaceFoldersChanged]
    rw [mem_foldl_mapDelete]
    constructor
    · rintro ⟨hm, hnr⟩
      refine ⟨hm, ?_⟩
      by_contra hni
      refine hnr ?_
      simp only [List.mem_filter, List.mem_map, Bool.not_eq_eq_eq_not, Bool.not_true]
      refine ⟨⟨kv, hm, rfl⟩, ?_⟩
      simpa using hni
    · rintro ⟨hm, hin⟩
      refine ⟨hm, ?_⟩
      intro hr
      simp only [List.mem_filter, Bool.not_eq_eq_eq_not, Bool.not_true] at hr
      exact absurd hin (by simpa using hr.2)
  refine ⟨fun kv hkv => ((hmem kv).mp hkv).2,
    fun kv hkv hin => (hmem kv).mpr ⟨hkv, hin⟩, ?_⟩
  intro hni
  refine lookup_eq_none_of_all_ne _ _ fun kv hkv he => ?_
  exact hni (he ▸ ((hmem kv).mp hkv).2)

/-- Witness for C10: a registry caching the global entry `""` and folders
`/a` and `/b`; after the folder list shrinks to `["/a"]`, the global entry is
gone and the `/a` entry is retained. -/
theorem claim_C10_folder_change_gc_witness :
    (PythonSettings.onWorkspaceFoldersChanged ["/a"]
      ⟨[("", ⟨0, [0, 1]⟩), ("/a", ⟨1, [0, 1]⟩), ("/b", ⟨2, [0, 1]⟩)], 3⟩).settings.lookup "" =
      none ∧
    ("/a", (⟨1, [0, 1]⟩ : Inst)) ∈
      (PythonSettings.onWorkspaceFoldersChanged ["/a"]
        ⟨[("", ⟨0, [0, 1]⟩), ("/a", ⟨1, [0, 1]⟩), ("/b", ⟨2, [0, 1]⟩)], 3⟩).settings :=
  ⟨(claim_C10_folder_change_gc ["/a"]
      ⟨[("", ⟨0, [0, 1]⟩), ("/a", ⟨1, [0, 1]⟩), ("/b", ⟨2, [0, 1]⟩)], 3⟩).2.2 (by decide),
   (claim_C10_folder_change_gc ["/a"]
      ⟨[("", ⟨0, [0, 1]⟩), ("/a", ⟨1, [0, 1]⟩), ("/b", ⟨2, [0, 1]⟩)], 3⟩).2.1
      ("/a", ⟨1, [0, 1]⟩) (by decide) (by decide)⟩

end ConfigSettings
